import Mathlib

/-!
Verification of the StatusLed blink utility from
src/examples/my-arduino-project/src/arduino/library/StatusLed.

The C++ class StatusLed owns a pin id (uint8_t _pin), a boolean output
state (bool _state) and the timestamp of the last toggle
(unsigned long _lastToggle).  begin() configures the pin as an output and
drives it LOW; blink(intervalMs) reads millis() and toggles when the
wraparound-safe elapsed time now - _lastToggle reaches intervalMs.

Shallow embedding choices: unsigned long is a Nat reduced modulo 2 ^ 32
at every point where the C type would truncate; the millis() clock is an
explicit parameter now of blink; each operation returns, next to the new
object, the list of logical levels it wrote to the pin (true = HIGH,
false = LOW), so that pin writes are observable.
-/

/-- The Arduino HIGH logical level, embedded as the boolean true. -/
def HIGH : Bool := true

/-- The Arduino LOW logical level, embedded as the boolean false. -/
def LOW : Bool := false

/-- 2 ^ 32, the modulus of the unsigned long type on the target. -/
def ulongMod : Nat := 2 ^ 32

/-- Unsigned-long subtraction a - b with C wraparound semantics: both
operands are reduced into the type and the difference is taken modulo
2 ^ 32. -/
def ulongSub (a b : Nat) : Nat :=
  (a % ulongMod + (ulongMod - b % ulongMod)) % ulongMod

/-- The fields of class StatusLed (StatusLed.h):
uint8_t _pin; bool _state; unsigned long _lastToggle. -/
structure StatusLed where
  _pin : Nat
  _state : Bool
  _lastToggle : Nat

/-- StatusLed::StatusLed(uint8_t pin) : _pin(pin), _state(false),
_lastToggle(0).  The uint8_t argument truncates modulo 256. -/
def StatusLed.construct (pin : Nat) : StatusLed :=
  { _pin := pin % 256, _state := false, _lastToggle := 0 }

/-- StatusLed::begin(): pinMode(_pin, OUTPUT); digitalWrite(_pin, LOW).
No field is touched; the single pin write of LOW is returned. -/
def StatusLed.begin (led : StatusLed) : StatusLed × List Bool :=
  (led, [LOW])

/-- StatusLed::blink(unsigned long intervalMs) at clock value now:
if now - _lastToggle >= intervalMs (unsigned arithmetic) then
_state = !_state; digitalWrite(_pin, _state ? HIGH : LOW);
_lastToggle = now; otherwise nothing happens. -/
def StatusLed.blink (led : StatusLed) (intervalMs now : Nat) :
    StatusLed × List Bool :=
  if intervalMs % ulongMod ≤ ulongSub now led._lastToggle then
    ({ led with _state := !led._state, _lastToggle := now % ulongMod },
     [if !led._state then HIGH else LOW])
  else
    (led, [])

/-- When the guard of blink holds, the result is the toggled object plus
one pin write of the new level. -/
lemma blink_toggle_eq (led : StatusLed) (i n : Nat)
    (h : i % ulongMod ≤ ulongSub n led._lastToggle) :
    led.blink i n =
      ({ led with _state := !led._state, _lastToggle := n % ulongMod },
       [if !led._state then HIGH else LOW]) := by
  unfold StatusLed.blink
  rw [if_pos h]

/-- When the guard of blink fails, the object is unchanged and nothing is
written to the pin. -/
lemma blink_skip_eq (led : StatusLed) (i n : Nat)
    (h : ¬ i % ulongMod ≤ ulongSub n led._lastToggle) :
    led.blink i n = (led, []) := by
  unfold StatusLed.blink
  rw [if_neg h]

/-- Claim C1: if the wraparound-safe elapsed time now - lastToggleTimestamp
is at least intervalMs, then tick(intervalMs) flips outputState exactly
once, writes the logical level matching the new outputState (HIGH iff the
new state is true, LOW otherwise) to the pin, and sets lastToggleTimestamp
to now. -/
theorem C1_toggle_on_threshold (led : StatusLed) (intervalMs now : Nat)
    (hi : intervalMs < ulongMod) (hn : now < ulongMod)
    (h : intervalMs ≤ ulongSub now led._lastToggle) :
    led.blink intervalMs now =
      ({ led with _state := !led._state, _lastToggle := now },
       [if !led._state then HIGH else LOW]) := by
  have := blink_toggle_eq led intervalMs now
    (by rw [Nat.mod_eq_of_lt hi]; exact h)
  rw [this, Nat.mod_eq_of_lt hn]

/-- Claim C1 witness: a concrete toggle at interval 500 from timestamp 0 at
clock 500. -/
theorem C1_toggle_on_threshold_witness :
    (StatusLed.construct 13).blink 500 500 =
      ({ StatusLed.construct 13 with
           _state := !(StatusLed.construct 13)._state, _lastToggle := 500 },
       [if !(StatusLed.construct 13)._state then HIGH else LOW]) :=
  C1_toggle_on_threshold (StatusLed.construct 13) 500 500
    (by decide) (by decide) (by decide)

/-- Claim C2: if the elapsed time since the last toggle is strictly less
than intervalMs, then tick(intervalMs) leaves both outputState and
lastToggleTimestamp unchanged. -/
theorem C2_no_toggle_before_interval (led : StatusLed) (intervalMs now : Nat)
    (hi : intervalMs < ulongMod)
    (h : ulongSub now led._lastToggle < intervalMs) :
    (led.blink intervalMs now).1._state = led._state ∧
      (led.blink intervalMs now).1._lastToggle = led._lastToggle := by
  rw [blink_skip_eq led intervalMs now
    (by rw [Nat.mod_eq_of_lt hi]; omega)]
  exact ⟨rfl, rfl⟩

/-- Claim C2 witness: a concrete no-op at interval 500 from timestamp 0 at
clock 100. -/
theorem C2_no_toggle_before_interval_witness :
    ((StatusLed.construct 13).blink 500 100).1._state =
        (StatusLed.construct 13)._state ∧
      ((StatusLed.construct 13).blink 500 100).1._lastToggle =
        (StatusLed.construct 13)._lastToggle :=
  C2_no_toggle_before_interval (StatusLed.construct 13) 500 100
    (by decide) (by decide)

/-- The wrapped unsigned subtraction recovers the true duration whenever
that duration fits in the type. -/
lemma ulongSub_of_wrap (lastReal nowReal : Nat)
    (hle : lastReal ≤ nowReal) (hdur : nowReal - lastReal < ulongMod) :
    ulongSub (nowReal % ulongMod) (lastReal % ulongMod) =
      nowReal - lastReal := by
  have hM : ulongMod = 4294967296 := by norm_num [ulongMod]
  unfold ulongSub
  rw [hM] at hdur ⊢
  omega

/-- Claim C3: when the clock has wrapped past zero, the unsigned
subtraction now - lastToggleTimestamp still equals the true duration since
the last toggle, and the toggle decision of tick is the one it would make
in the non-wrapped case (timestamp 0, clock equal to the true duration). -/
theorem C3_wraparound_safe (led : StatusLed) (intervalMs lastReal nowReal : Nat)
    (hle : lastReal ≤ nowReal) (hdur : nowReal - lastReal < ulongMod) :
    ulongSub (nowReal % ulongMod) (lastReal % ulongMod) =
        nowReal - lastReal ∧
      (({ led with _lastToggle := lastReal % ulongMod }).blink intervalMs
          (nowReal % ulongMod)).1._state =
        (({ led with _lastToggle := 0 }).blink intervalMs
          (nowReal - lastReal)).1._state := by
  have key := ulongSub_of_wrap lastReal nowReal hle hdur
  have key0 : ulongSub (nowReal - lastReal) 0 = nowReal - lastReal := by
    have hM : ulongMod = 4294967296 := by norm_num [ulongMod]
    unfold ulongSub
    rw [hM] at hdur ⊢
    omega
  refine ⟨key, ?_⟩
  unfold StatusLed.blink
  simp only [key, key0]
  by_cases h : intervalMs % ulongMod ≤ nowReal - lastReal
  · rw [if_pos h, if_pos h]
  · rw [if_neg h, if_neg h]

/-- Claim C3 witness: timestamp 2 ^ 32 - 5 (near the maximum), true clock
2 ^ 32 + 10 (wrapped to 10), true duration 15. -/
theorem C3_wraparound_safe_witness :
    ulongSub (4294967306 % ulongMod) (4294967291 % ulongMod) =
        4294967306 - 4294967291 ∧
      (({ StatusLed.construct 13 with
            _lastToggle := 4294967291 % ulongMod }).blink 12
          (4294967306 % ulongMod)).1._state =
        (({ StatusLed.construct 13 with _lastToggle := 0 }).blink 12
          (4294967306 - 4294967291)).1._state :=
  C3_wraparound_safe (StatusLed.construct 13) 12 4294967291 4294967306
    (by decide) (by decide)

/-- Claim C7: the pin id is set at construction and never changed:
initialize() leaves every field (pinId, outputState, lastToggleTimestamp)
unchanged, and tick leaves the pin id unchanged. -/
theorem C7_pin_immutable (led : StatusLed) (intervalMs now : Nat) :
    (led.begin).1 = led ∧
      ((led.blink intervalMs now).1)._pin = led._pin := by
  refine ⟨rfl, ?_⟩
  unfold StatusLed.blink
  split
  · rfl
  · rfl

/-- Claim C8: with intervalMs = 0 the guard always holds (the unsigned
elapsed time is at least 0), so tick always toggles, writes the new level
and stamps the clock value. -/
theorem C8_zero_interval_always_toggles (led : StatusLed) (now : Nat)
    (hn : now < ulongMod) :
    led.blink 0 now =
      ({ led with _state := !led._state, _lastToggle := now },
       [if !led._state then HIGH else LOW]) := by
  have := blink_toggle_eq led 0 now
    (by rw [Nat.zero_mod]; exact Nat.zero_le _)
  rw [this, Nat.mod_eq_of_lt hn]

/-- Claim C8 witness: interval 0 toggles even at clock 0 with timestamp 0. -/
theorem C8_zero_interval_always_toggles_witness :
    (StatusLed.construct 13).blink 0 0 =
      ({ StatusLed.construct 13 with
           _state := !(StatusLed.construct 13)._state, _lastToggle := 0 },
       [if !(StatusLed.construct 13)._state then HIGH else LOW]) :=
  C8_zero_interval_always_toggles (StatusLed.construct 13) 0 (by decide)

/-- Claim C9: below the threshold, tick performs no pin write at all. -/
theorem C9_no_write_below_threshold (led : StatusLed) (intervalMs now : Nat)
    (hi : intervalMs < ulongMod)
    (h : ulongSub now led._lastToggle < intervalMs) :
    (led.blink intervalMs now).2 = [] := by
  rw [blink_skip_eq led intervalMs now
    (by rw [Nat.mod_eq_of_lt hi]; omega)]

/-- Claim C9 witness: interval 500 from timestamp 0 at clock 100 writes
nothing. -/
theorem C9_no_write_below_threshold_witness :
    ((StatusLed.construct 13).blink 500 100).2 = [] :=
  C9_no_write_below_threshold (StatusLed.construct 13) 500 100
    (by decide) (by decide)

/-- Claim C10: two successive ticks that both meet the threshold return
outputState to its value before the first of the two calls. -/
theorem C10_double_toggle_identity (led : StatusLed) (i1 n1 i2 n2 : Nat)
    (h1 : i1 % ulongMod ≤ ulongSub n1 led._lastToggle)
    (h2 : i2 % ulongMod ≤ ulongSub n2 ((led.blink i1 n1).1)._lastToggle) :
    (((led.blink i1 n1).1).blink i2 n2).1._state = led._state := by
  rw [blink_toggle_eq led i1 n1 h1] at h2 ⊢
  rw [blink_toggle_eq _ i2 n2 h2]
  simp

/-- Claim C10 witness: toggles at clocks 500 and 1000 with interval 500
restore the initial state. -/
theorem C10_double_toggle_identity_witness :
    ((((StatusLed.construct 13).blink 500 500).1).blink 500 1000).1._state =
      (StatusLed.construct 13)._state :=
  C10_double_toggle_identity (StatusLed.construct 13) 500 500 500 1000
    (by decide) (by decide)

/-- Claim C6: the scenario of the spec.  Construct with pin 13, then
initialize() writes LOW; tick(500) at clock 0 does not toggle; tick(500)
at clock 500 toggles to HIGH and stamps 500; tick(500) at clock 800 does
not toggle; tick(500) at clock 1000 toggles to LOW and stamps 1000. -/
theorem C6_scenario :
    ((StatusLed.construct 13).begin).2 = [LOW] ∧
      ((StatusLed.construct 13).blink 500 0).1._state = false ∧
      ((StatusLed.construct 13).blink 500 0).1._lastToggle = 0 ∧
      (((StatusLed.construct 13).blink 500 0).1.blink 500 500).1._state =
        HIGH ∧
      (((StatusLed.construct 13).blink 500 0).1.blink 500
          500).1._lastToggle = 500 ∧
      ((((StatusLed.construct 13).blink 500 0).1.blink 500 500).1.blink 500
          800).1._state = HIGH ∧
      ((((StatusLed.construct 13).blink 500 0).1.blink 500 500).1.blink 500
          800).1._lastToggle = 500 ∧
      (((((StatusLed.construct 13).blink 500 0).1.blink 500 500).1.blink 500
          800).1.blink 500 1000).1._state = LOW ∧
      (((((StatusLed.construct 13).blink 500 0).1.blink 500 500).1.blink 500
          800).1.blink 500 1000).1._lastToggle = 1000 := by
  decide

/-- The last element of a list of pin writes, falling back to the previous
last-written level when the list is empty. -/
def lastWrite (writes : List Bool) (prev : Option Bool) : Option Bool :=
  match writes.getLast? with
  | some l => some l
  | none => prev

/-- A StatusLed object together with the last logical level physically
written to its pin (none before the first write). -/
structure World where
  led : StatusLed
  pinLevel : Option Bool

/-- One external call on the object: begin(), or blink at a given interval
and clock value. -/
inductive Op where
  | init : Op
  | tick : Nat → Nat → Op

/-- Apply one call to the object, tracking the last level written. -/
def World.apply (w : World) : Op → World
  | Op.init =>
      { led := (w.led.begin).1,
        pinLevel := lastWrite (w.led.begin).2 w.pinLevel }
  | Op.tick i n =>
      { led := (w.led.blink i n).1,
        pinLevel := lastWrite (w.led.blink i n).2 w.pinLevel }

/-- Apply a sequence of calls from left to right. -/
def World.run (w : World) (ops : List Op) : World :=
  ops.foldl World.apply w

/-- The world right after construction with the given pin: no level has
been written yet. -/
def World.start (pin : Nat) : World :=
  { led := StatusLed.construct pin, pinLevel := none }

/-- Interval/clock pairs as tick calls. -/
def tickOps (ps : List (Nat × Nat)) : List Op :=
  ps.map fun p => Op.tick p.1 p.2

/-- A tick call preserves the agreement between the internal state and the
last level written to the pin. -/
lemma consistent_tick (w : World) (i n : Nat)
    (h : w.pinLevel = some w.led._state) :
    (w.apply (Op.tick i n)).pinLevel =
      some ((w.apply (Op.tick i n)).led._state) := by
  by_cases hg : i % ulongMod ≤ ulongSub n w.led._lastToggle
  · show lastWrite (w.led.blink i n).2 w.pinLevel =
      some ((w.led.blink i n).1._state)
    rw [blink_toggle_eq w.led i n hg]
    show some (if !w.led._state then HIGH else LOW) = some (!w.led._state)
    cases w.led._state
    · rfl
    · rfl
  · show lastWrite (w.led.blink i n).2 w.pinLevel =
      some ((w.led.blink i n).1._state)
    rw [blink_skip_eq w.led i n hg]
    exact h

/-- Running any sequence of tick calls preserves the agreement between the
internal state and the last level written to the pin. -/
lemma consistent_run (w : World) (ps : List (Nat × Nat))
    (h : w.pinLevel = some w.led._state) :
    (w.run (tickOps ps)).pinLevel =
      some ((w.run (tickOps ps)).led._state) := by
  induction ps generalizing w with
  | nil => exact h
  | cons p ps ih =>
      exact ih (w.apply (Op.tick p.1 p.2)) (consistent_tick w p.1 p.2 h)

/-- Claim C4 counterexample: from a freshly constructed object, one tick
with interval 0 at clock 0 toggles the state to true; calling initialize()
on that object drives the pin LOW yet leaves outputState true, so the
claim as stated over every state is false. -/
theorem C4_counterexample :
    ((((StatusLed.construct 13).blink 0 0).1).begin).2 = [LOW] ∧
      ((((StatusLed.construct 13).blink 0 0).1).begin).1._state = true := by
  decide

/-- Claim C4 (amended): immediately after initialize() on a freshly
constructed object, the pin is driven to the low logical level and
outputState is false. -/
theorem C4_initial_state (pin : Nat) :
    ((StatusLed.construct pin).begin).2 = [LOW] ∧
      ((StatusLed.construct pin).begin).1._state = false :=
  ⟨rfl, rfl⟩

/-- Claim C5 counterexample: the sequence initialize, tick(0) at clock 0,
initialize again, leaves the last written level at LOW while outputState
is HIGH, so the invariant fails for sequences with a repeated
initialize(). -/
theorem C5_counterexample :
    ((World.start 13).run
        [Op.init, Op.tick 0 0, Op.init]).pinLevel = some LOW ∧
      ((World.start 13).run
        [Op.init, Op.tick 0 0, Op.init]).led._state = HIGH := by
  decide

/-- Claim C5 (amended): in every state reachable from a freshly
constructed object by one initialize() followed by any sequence of tick
calls, outputState equals the last logical level written to the pin. -/
theorem C5_state_matches_pin (pin : Nat) (ticks : List (Nat × Nat)) :
    (((World.start pin).apply Op.init).run (tickOps ticks)).pinLevel =
      some ((((World.start pin).apply Op.init).run
        (tickOps ticks)).led._state) :=
  consistent_run ((World.start pin).apply Op.init) ticks rfl
